import Mathlib

/-!
Shallow embedding of scripts/build_splash.py.

The script composes a splash image: it opens a source icon, converts it to
RGBA, resizes it to a fixed square with the LANCZOS filter, pastes it onto a
black RGB canvas, resolves a font from a ranked candidate list, draws the
label text centered below the icon, and saves the canvas as a PNG.

The embedding models the Pillow image values as a constructor tree recording
exactly the operations the script applies, and models the host environment
(icon file contents, font loader, default font, plus inputs the script never
reads: argv, environment variables, time, randomness) as an explicit `Env`
record. The body of `main` below is a line-by-line translation of the `main`
function of the script; Python floor division on ints is `Int.fdiv`.
-/

namespace BuildSplash

/-- Decoded source icon file: its pixel dimensions, original mode and an
abstract content identifier. `none` at `Env.iconFile` models the open call
raising (missing or unreadable file). -/
structure IconData where
  width : Nat
  height : Nat
  mode : String
  contentId : Nat
deriving DecidableEq, Repr

/-- A Python exception value, carrying only its message. -/
structure PyExn where
  msg : String
deriving DecidableEq, Repr

/-- Text bounding box as returned by draw.textbbox((0, 0), text, font):
(left, top, right, bottom). -/
structure BBox where
  x0 : Int
  y0 : Int
  x1 : Int
  y1 : Int
deriving DecidableEq, Repr

/-- A loaded font: an identity tag and the measured bounding box it reports
for a given text at the fixed point size. -/
structure Font where
  fontId : Nat
  bbox : String → BBox

/-- The PIL resampling filters (Image.Resampling). The script uses LANCZOS. -/
inductive Resampling where
  | NEAREST
  | BOX
  | BILINEAR
  | HAMMING
  | BICUBIC
  | LANCZOS
deriving DecidableEq, Repr

/-- In-memory image values, as the constructor tree of the operations that
built them. -/
inductive Img where
  | opened (d : IconData) : Img
  | convert (src : Img) (mode : String) : Img
  | resize (src : Img) (w h : Nat) (filt : Resampling) : Img
  | new (mode : String) (w h : Nat) (color : Nat × Nat × Nat) : Img
  | paste (base icon : Img) (pos : Int × Int) (mask : Option Img) : Img
  | drawText (base : Img) (pos : Int × Int) (text : String) (fill : Nat × Nat × Nat) (font : Font) : Img

/-- Mode of an image value (PIL semantics: convert sets it, resize, paste and
text drawing keep the mode of the base image). -/
def Img.mode : Img → String
  | .opened d => d.mode
  | .convert _ m => m
  | .resize src _ _ _ => src.mode
  | .new m _ _ _ => m
  | .paste base _ _ _ => base.mode
  | .drawText base _ _ _ _ => base.mode

/-- Width of an image value. -/
def Img.width : Img → Nat
  | .opened d => d.width
  | .convert src _ => src.width
  | .resize _ w _ _ => w
  | .new _ w _ _ => w
  | .paste base _ _ _ => base.width
  | .drawText base _ _ _ _ => base.width

/-- Height of an image value. -/
def Img.height : Img → Nat
  | .opened d => d.height
  | .convert src _ => src.height
  | .resize _ _ h _ => h
  | .new _ _ h _ => h
  | .paste base _ _ _ => base.height
  | .drawText base _ _ _ _ => base.height

/-- Observable side effects of a run. -/
inductive Effect where
  | fileWrite (path : String) (img : Img) (format : String) : Effect
  | stdoutLine (line : String) : Effect

/-- The host environment a run executes in. The script only ever reads
`scriptDir`, `iconFile`, `fontLoad`, `defaultFont` and `saveOk`; the fields
`argv`, `envVars`, `time` and `randomSeed` are carried so that independence
from them is a provable statement rather than a convention. -/
structure Env where
  scriptDir : String
  iconFile : Option IconData
  fontLoad : String → Nat → Nat → Except PyExn Font
  defaultFont : Font
  saveOk : Bool
  argv : List String
  envVars : String → Option String
  time : Nat
  randomSeed : Nat

/-- os.path.join for the relative components used by the script. -/
def joinPath (a b : String) : String :=
  a ++ "/" ++ b

/-- RESOURCES_DIR = os.path.join(SCRIPT_DIR, "..", "VGB", "App", "Resources"). -/
def RESOURCES_DIR (scriptDir : String) : String :=
  joinPath (joinPath (joinPath (joinPath scriptDir ("..")) ("VGB")) ("App")) ("Resources")

/-- ICON_PATH = os.path.join(RESOURCES_DIR, "IconKitchen-Output", "ios",
"AppIcon~ios-marketing.png"). -/
def ICON_PATH (scriptDir : String) : String :=
  joinPath (joinPath (joinPath (RESOURCES_DIR scriptDir) ("IconKitchen-Output")) ("ios"))
    ("AppIcon~ios-marketing.png")

/-- OUT_PATH = os.path.join(RESOURCES_DIR, "Assets.xcassets",
"LaunchLogo.imageset", "LaunchLogo.png"). -/
def OUT_PATH (scriptDir : String) : String :=
  joinPath (joinPath (joinPath (RESOURCES_DIR scriptDir) ("Assets.xcassets"))
    ("LaunchLogo.imageset")) ("LaunchLogo.png")

def W : Nat := 1200
def H : Nat := 1600
def ICON_SIZE : Nat := 520
def ICON_TOP : Nat := 200
def GAP : Nat := 44
def TEXT_SIZE : Nat := 72

/-- The ranked font candidates (path, face index) tried by the loop in main. -/
def FONT_CANDIDATES : List (String × Nat) :=
  [("/System/Library/Fonts/HelveticaNeue.ttc", 1),
   ("/System/Library/Fonts/HelveticaNeue.ttc", 0),
   ("/System/Library/Fonts/Supplemental/Avenir Next.ttc", 0),
   ("/System/Library/Fonts/Helvetica.ttc", 0)]

/-- The font-resolution loop of main: try ImageFont.truetype(path, TEXT_SIZE,
index) on each candidate in order; a bare except skips any raising candidate;
break on the first success. Returns the final value of the font variable. -/
def tryFonts (load : String → Nat → Nat → Except PyExn Font) :
    List (String × Nat) → Option Font
  | [] => none
  | (path, index) :: rest =>
    match load path TEXT_SIZE index with
    | .ok f => some f
    | .error _ => tryFonts load rest

/-- The resolved font: the loop result, or ImageFont.load_default() when the
loop left the font variable at None. -/
def resolveFont (env : Env) : Font :=
  match tryFonts env.fontLoad FONT_CANDIDATES with
  | some f => f
  | none => env.defaultFont

/-- Line-by-line translation of main(): returns the ordered trace of
observable effects together with normal or exceptional termination. -/
def main (env : Env) : List Effect × Except PyExn Unit :=
  match env.iconFile with
  | none => ([], Except.error ⟨"FileNotFoundError"⟩)
  | some d =>
    let icon := Img.resize (Img.convert (Img.opened d) ("RGBA")) ICON_SIZE ICON_SIZE
      Resampling.LANCZOS
    let out := Img.new ("RGB") W H (0, 0, 0)
    let x_center : Nat := (W - ICON_SIZE) / 2
    let out1 := Img.paste out icon ((x_center : Int), (ICON_TOP : Int)) (some icon)
    let font := resolveFont env
    let text := "Checkpoint"
    let bbox := font.bbox text
    let tw : Int := bbox.x1 - bbox.x0
    let th : Int := bbox.y1 - bbox.y0
    let text_y : Int := ((ICON_TOP + ICON_SIZE + GAP : Nat) : Int)
    let out2 := Img.drawText out1 (Int.fdiv ((W : Int) - tw) 2, text_y - bbox.y0) text
      (255, 255, 255) font
    if env.saveOk then
      ([Effect.fileWrite (OUT_PATH env.scriptDir) out2 ("PNG"),
        Effect.stdoutLine ("Saved " ++ OUT_PATH env.scriptDir)], Except.ok ())
    else
      ([], Except.error ⟨"OSError"⟩)

/-- The image written by a run, when one is written. -/
def outputImage (env : Env) : Option Img :=
  (main env).1.findSome? fun e =>
    match e with
    | .fileWrite _ img _ => some img
    | _ => none

/-- Position argument of the text-draw operation on an image value, if any. -/
def Img.textPos : Img → Option (Int × Int)
  | .drawText _ pos _ _ _ => some pos
  | _ => none

/-- Font argument of the text-draw operation on an image value, if any. -/
def Img.textFont : Img → Option Font
  | .drawText _ _ _ _ f => some f
  | _ => none

/-- Position at which the label text is drawn in the output image of a run. -/
def drawnTextPos (env : Env) : Option (Int × Int) :=
  (outputImage env).bind Img.textPos

/-- Success projection of Except, for stating first-success font selection. -/
def exceptToOption (e : Except PyExn Font) : Option Font :=
  match e with
  | .ok f => some f
  | .error _ => none

/-- The icon image after convert("RGBA") and resize, as built by main. -/
def resizedIcon (d : IconData) : Img :=
  Img.resize (Img.convert (Img.opened d) ("RGBA")) ICON_SIZE ICON_SIZE Resampling.LANCZOS

/-- The fully composed output image of a successful run on icon data d. -/
def finalImg (env : Env) (d : IconData) : Img :=
  Img.drawText
    (Img.paste (Img.new ("RGB") W H (0, 0, 0)) (resizedIcon d)
      ((((W - ICON_SIZE) / 2 : Nat) : Int), ((ICON_TOP : Nat) : Int)) (some (resizedIcon d)))
    (Int.fdiv ((W : Int) - (((resolveFont env).bbox ("Checkpoint")).x1 -
        ((resolveFont env).bbox ("Checkpoint")).x0)) 2,
      ((ICON_TOP + ICON_SIZE + GAP : Nat) : Int) - ((resolveFont env).bbox ("Checkpoint")).y0)
    ("Checkpoint") (255, 255, 255) (resolveFont env)

/-- A sample decoded icon, deliberately not in RGBA mode. -/
def sampleIcon : IconData :=
  ⟨1024, 1024, "P", 7⟩

/-- A font whose reported bounding box has zero offsets. -/
def zeroFont : Font :=
  ⟨0, fun _ => ⟨0, 0, 0, 0⟩⟩

/-- A font whose reported bounding box has a nonzero left offset (x0 = 6). -/
def font6 : Font :=
  ⟨100, fun _ => ⟨6, 10, 106, 80⟩⟩

/-- Concrete environment: icon present, every font candidate fails to load. -/
def envW : Env where
  scriptDir := "/repo/scripts"
  iconFile := some sampleIcon
  fontLoad := fun _ _ _ => Except.error ⟨"A"⟩
  defaultFont := zeroFont
  saveOk := true
  argv := []
  envVars := fun _ => none
  time := 0
  randomSeed := 0

/-- envW with different values for the fields the script never reads. -/
def envWT : Env :=
  { envW with
      time := 999
      randomSeed := 5
      argv := ["--verbose"]
      envVars := fun _ => some ("1") }

/-- envW with a loader that fails with different exception values. -/
def envWB : Env :=
  { envW with fontLoad := fun _ _ _ => Except.error ⟨"B"⟩ }

/-- Concrete environment whose first font candidate loads font6. -/
def envC1 : Env :=
  { envW with fontLoad := fun _ _ _ => Except.ok font6 }

/-- Concrete environment with a missing source icon file. -/
def envNone : Env :=
  { envW with iconFile := none }

/-- On a successful run, main produces exactly the write of the composed
image followed by the stdout confirmation line. -/
theorem main_success (env : Env) (d : IconData) (h1 : env.iconFile = some d)
    (h2 : env.saveOk = true) :
    main env =
      ([Effect.fileWrite (OUT_PATH env.scriptDir) (finalImg env d) ("PNG"),
        Effect.stdoutLine ("Saved " ++ OUT_PATH env.scriptDir)], Except.ok ()) := by
  unfold main
  rw [h1, h2]
  rfl

/-- On a successful run, the written image is the composed image. -/
theorem outputImage_success (env : Env) (d : IconData) (h1 : env.iconFile = some d)
    (h2 : env.saveOk = true) :
    outputImage env = some (finalImg env d) := by
  unfold outputImage
  rw [main_success env d h1 h2]
  rfl

/-- Normal form of the icon input path. -/
theorem ICON_PATH_eq (sd : String) :
    ICON_PATH sd =
      sd ++ "/../VGB/App/Resources/IconKitchen-Output/ios/AppIcon~ios-marketing.png" := by
  simp only [ICON_PATH, RESOURCES_DIR, joinPath, String.append_assoc]
  congr 1

/-- Normal form of the output path. -/
theorem OUT_PATH_eq (sd : String) :
    OUT_PATH sd =
      sd ++ "/../VGB/App/Resources/Assets.xcassets/LaunchLogo.imageset/LaunchLogo.png" := by
  simp only [OUT_PATH, RESOURCES_DIR, joinPath, String.append_assoc]
  congr 1

/-- The input path and the output path always differ. -/
theorem ICON_PATH_ne_OUT_PATH (sd : String) : ICON_PATH sd ≠ OUT_PATH sd := by
  intro hEq
  have hlen := congrArg String.length hEq
  rw [ICON_PATH_eq, OUT_PATH_eq, String.length_append, String.length_append] at hlen
  have l1 : ("/../VGB/App/Resources/IconKitchen-Output/ios/AppIcon~ios-marketing.png" :
      String).length = 70 := rfl
  have l2 : ("/../VGB/App/Resources/Assets.xcassets/LaunchLogo.imageset/LaunchLogo.png" :
      String).length = 72 := rfl
  rw [l1, l2] at hlen
  omega

/-- The font loop is first-success selection over the candidate list. -/
theorem tryFonts_findSome (load : String → Nat → Nat → Except PyExn Font)
    (cs : List (String × Nat)) :
    tryFonts load cs = cs.findSome? fun c => exceptToOption (load c.1 TEXT_SIZE c.2) := by
  induction cs with
  | nil => rfl
  | cons c rest ih =>
    obtain ⟨p, i⟩ := c
    unfold tryFonts
    cases h : load p TEXT_SIZE i <;>
      simp [List.findSome?_cons, exceptToOption, h, ih]

/-- Two loaders that succeed on exactly the same candidates with the same
fonts drive the loop to the same result, whatever exceptions they raise. -/
theorem tryFonts_ext (l1 l2 : String → Nat → Nat → Except PyExn Font)
    (h : ∀ p i f, l1 p TEXT_SIZE i = Except.ok f ↔ l2 p TEXT_SIZE i = Except.ok f)
    (cs : List (String × Nat)) : tryFonts l1 cs = tryFonts l2 cs := by
  induction cs with
  | nil => rfl
  | cons c rest ih =>
    obtain ⟨p, i⟩ := c
    unfold tryFonts
    cases h1 : l1 p TEXT_SIZE i with
    | ok f =>
      rw [(h p i f).mp h1]
    | error e =>
      cases h2 : l2 p TEXT_SIZE i with
      | ok f =>
        have := (h p i f).mpr h2
        rw [h1] at this
        exact absurd this (by simp)
      | error e2 => exact ih

/-- Claim C2: on every successful run the output image is exactly 1200 pixels
wide and 1600 pixels high, in RGB mode, created filled with opaque black
(0,0,0), and mutated only by the icon paste and the text draw before being
serialized as PNG. -/
theorem C2_output_canvas (env : Env) (d : IconData)
    (h1 : env.iconFile = some d) (h2 : env.saveOk = true) :
    ∃ img, outputImage env = some img ∧
      img.width = 1200 ∧ img.height = 1600 ∧ img.mode = "RGB" ∧
      ∃ icon pos font, img =
        Img.drawText
          (Img.paste (Img.new ("RGB") 1200 1600 (0, 0, 0)) icon ((340 : Int), (200 : Int))
            (some icon))
          pos ("Checkpoint") (255, 255, 255) font := by
  refine ⟨finalImg env d, outputImage_success env d h1 h2, rfl, rfl, rfl,
    resizedIcon d, _, resolveFont env, rfl⟩

/-- Witness for C2 at the concrete environment envW. -/
theorem C2_witness :
    envW.iconFile = some sampleIcon ∧ envW.saveOk = true ∧
    (∃ img, outputImage envW = some img ∧
      img.width = 1200 ∧ img.height = 1600 ∧ img.mode = "RGB" ∧
      ∃ icon pos font, img =
        Img.drawText
          (Img.paste (Img.new ("RGB") 1200 1600 (0, 0, 0)) icon ((340 : Int), (200 : Int))
            (some icon))
          pos ("Checkpoint") (255, 255, 255) font) :=
  ⟨rfl, rfl, C2_output_canvas envW sampleIcon rfl rfl⟩

/-- Claim C3: on every successful run, whatever the original mode of the
source icon, the icon is converted to RGBA, resized to exactly 520 by 520
with the LANCZOS filter, and pasted at x-offset (1200 - 520) / 2 = 340 and
top offset 200 with the icon itself supplying the paste mask. -/
theorem C3_icon_paste (env : Env) (d : IconData)
    (h1 : env.iconFile = some d) (h2 : env.saveOk = true) :
    (∃ pos font, outputImage env = some
      (Img.drawText
        (Img.paste (Img.new ("RGB") W H (0, 0, 0))
          (Img.resize (Img.convert (Img.opened d) ("RGBA")) 520 520 Resampling.LANCZOS)
          ((340 : Int), (200 : Int))
          (some (Img.resize (Img.convert (Img.opened d) ("RGBA")) 520 520 Resampling.LANCZOS)))
        pos ("Checkpoint") (255, 255, 255) font)) ∧
    (340 : Int) = ((1200 - 520) / 2 : Int) := by
  exact ⟨⟨_, resolveFont env, outputImage_success env d h1 h2⟩, rfl⟩

/-- Witness for C3 at the concrete environment envW, whose icon has mode P. -/
theorem C3_witness :
    envW.iconFile = some sampleIcon ∧ envW.saveOk = true ∧
    ((∃ pos font, outputImage envW = some
      (Img.drawText
        (Img.paste (Img.new ("RGB") W H (0, 0, 0))
          (Img.resize (Img.convert (Img.opened sampleIcon) ("RGBA")) 520 520 Resampling.LANCZOS)
          ((340 : Int), (200 : Int))
          (some (Img.resize (Img.convert (Img.opened sampleIcon) ("RGBA")) 520 520
            Resampling.LANCZOS)))
        pos ("Checkpoint") (255, 255, 255) font)) ∧
    (340 : Int) = ((1200 - 520) / 2 : Int)) :=
  ⟨rfl, rfl, C3_icon_paste envW sampleIcon rfl rfl⟩

/-- Claim C5: when the source icon file is absent or unreadable, the run
fails with the propagated exception and its effect trace is empty: nothing
is written anywhere, so the output path is never opened and a pre-existing
file there is untouched. -/
theorem C5_missing_icon (env : Env) (h : env.iconFile = none) :
    main env = ([], Except.error ⟨"FileNotFoundError"⟩) := by
  unfold main
  rw [h]

/-- Witness for C5 at the concrete environment envNone. -/
theorem C5_witness :
    envNone.iconFile = none ∧
    main envNone = ([], Except.error ⟨"FileNotFoundError"⟩) :=
  ⟨rfl, C5_missing_icon envNone rfl⟩

/-- Counterexample to claim C1 as stated: in environment envC1 the resolved
font reports bounding box (6, 10, 106, 80) for the label, the text is drawn
at x = 550 = (1200 - 100) / 2, and the ink extent starts at 550 + 6 = 556,
which is not the centered ink position (1200 - 100) / 2 = 550: the code
ignores the left offset x0 of the bounding box when centering. -/
theorem C1_counterexample :
    envC1.iconFile = some sampleIcon ∧ envC1.saveOk = true ∧
    resolveFont envC1 = font6 ∧
    drawnTextPos envC1 = some (550, 754) ∧
    (font6.bbox ("Checkpoint")).x0 = 6 ∧
    ¬ ((550 : Int) + (font6.bbox ("Checkpoint")).x0 =
        Int.fdiv ((1200 : Int) - ((font6.bbox ("Checkpoint")).x1 -
          (font6.bbox ("Checkpoint")).x0)) 2) := by
  refine ⟨rfl, rfl, rfl, ?_, rfl, ?_⟩
  · decide
  · decide

/-- Claim C1 (amended): for every resolved font the x coordinate at which
the label is drawn is (W - tw) / 2 computed by floor division from the
measured bounding-box width tw = x1 - x0 of the literal string Checkpoint;
the resulting ink extent is offset from the exactly centered position by the
bounding-box left offset x0, so it is perfectly centered precisely when
x0 = 0. -/
theorem C1_text_x (env : Env) (d : IconData) (h1 : env.iconFile = some d)
    (h2 : env.saveOk = true) :
    (∃ y, drawnTextPos env = some
      (Int.fdiv ((W : Int) - (((resolveFont env).bbox ("Checkpoint")).x1 -
        ((resolveFont env).bbox ("Checkpoint")).x0)) 2, y)) ∧
    (∀ x y, drawnTextPos env = some (x, y) →
      x + ((resolveFont env).bbox ("Checkpoint")).x0 =
        Int.fdiv ((W : Int) - (((resolveFont env).bbox ("Checkpoint")).x1 -
          ((resolveFont env).bbox ("Checkpoint")).x0)) 2 +
        ((resolveFont env).bbox ("Checkpoint")).x0) := by
  have hout : drawnTextPos env = some
      (Int.fdiv ((W : Int) - (((resolveFont env).bbox ("Checkpoint")).x1 -
        ((resolveFont env).bbox ("Checkpoint")).x0)) 2,
       ((ICON_TOP + ICON_SIZE + GAP : Nat) : Int) -
         ((resolveFont env).bbox ("Checkpoint")).y0) := by
    unfold drawnTextPos
    rw [outputImage_success env d h1 h2]
    rfl
  refine ⟨⟨_, hout⟩, ?_⟩
  intro x y hxy
  rw [hout] at hxy
  simp only [Option.some.injEq, Prod.mk.injEq] at hxy
  rw [← hxy.1]

/-- Witness for the amended C1 at the concrete environment envW. -/
theorem C1_witness :
    envW.iconFile = some sampleIcon ∧ envW.saveOk = true ∧
    ((∃ y, drawnTextPos envW = some
      (Int.fdiv ((W : Int) - (((resolveFont envW).bbox ("Checkpoint")).x1 -
        ((resolveFont envW).bbox ("Checkpoint")).x0)) 2, y)) ∧
    (∀ x y, drawnTextPos envW = some (x, y) →
      x + ((resolveFont envW).bbox ("Checkpoint")).x0 =
        Int.fdiv ((W : Int) - (((resolveFont envW).bbox ("Checkpoint")).x1 -
          ((resolveFont envW).bbox ("Checkpoint")).x0)) 2 +
        ((resolveFont envW).bbox ("Checkpoint")).x0)) :=
  ⟨rfl, rfl, C1_text_x envW sampleIcon rfl rfl⟩

/-- Claim C9: on every successful run the y coordinate passed to the text
draw is (ICON_TOP + ICON_SIZE + GAP) - y0 for the measured bounding-box top
offset y0, ICON_TOP + ICON_SIZE + GAP = 764, and therefore the top edge of
the rendered ink, y + y0, lands at exactly 764 for every resolved font. -/
theorem C9_text_top (env : Env) (d : IconData) (h1 : env.iconFile = some d)
    (h2 : env.saveOk = true) :
    (∃ x, drawnTextPos env = some
      (x, ((ICON_TOP + ICON_SIZE + GAP : Nat) : Int) -
        ((resolveFont env).bbox ("Checkpoint")).y0)) ∧
    ((ICON_TOP + ICON_SIZE + GAP : Nat) : Int) = 764 ∧
    (∀ x y, drawnTextPos env = some (x, y) →
      y + ((resolveFont env).bbox ("Checkpoint")).y0 = 764) := by
  have hout : drawnTextPos env = some
      (Int.fdiv ((W : Int) - (((resolveFont env).bbox ("Checkpoint")).x1 -
        ((resolveFont env).bbox ("Checkpoint")).x0)) 2,
       ((ICON_TOP + ICON_SIZE + GAP : Nat) : Int) -
         ((resolveFont env).bbox ("Checkpoint")).y0) := by
    unfold drawnTextPos
    rw [outputImage_success env d h1 h2]
    rfl
  refine ⟨⟨_, hout⟩, rfl, ?_⟩
  intro x y hxy
  rw [hout] at hxy
  simp only [Option.some.injEq, Prod.mk.injEq] at hxy
  rw [← hxy.2]
  simp only [ICON_TOP, ICON_SIZE, GAP]
  omega

/-- Witness for C9 at the concrete environment envW. -/
theorem C9_witness :
    envW.iconFile = some sampleIcon ∧ envW.saveOk = true ∧
    ((∃ x, drawnTextPos envW = some
      (x, ((ICON_TOP + ICON_SIZE + GAP : Nat) : Int) -
        ((resolveFont envW).bbox ("Checkpoint")).y0)) ∧
    ((ICON_TOP + ICON_SIZE + GAP : Nat) : Int) = 764 ∧
    (∀ x y, drawnTextPos envW = some (x, y) →
      y + ((resolveFont envW).bbox ("Checkpoint")).y0 = 764)) :=
  ⟨rfl, rfl, C9_text_top envW sampleIcon rfl rfl⟩

/-- Claim C4: font resolution is first-success selection over the fixed list
of four (path, face index) candidates at point size 72, with the default
font as fallback when every candidate fails, and it never makes the run
fail: the run succeeds exactly when the icon opens and the save succeeds,
independently of the font loader. -/
theorem C4_font_resolution (env : Env) :
    resolveFont env =
      ((FONT_CANDIDATES.findSome? fun c =>
        exceptToOption (env.fontLoad c.1 TEXT_SIZE c.2)).getD env.defaultFont) ∧
    FONT_CANDIDATES.length = 4 ∧ TEXT_SIZE = 72 ∧
    ((main env).2 = Except.ok () ↔ env.iconFile.isSome = true ∧ env.saveOk = true) := by
  refine ⟨?_, rfl, rfl, ?_⟩
  · unfold resolveFont
    rw [tryFonts_findSome]
    cases FONT_CANDIDATES.findSome? fun c => exceptToOption (env.fontLoad c.1 TEXT_SIZE c.2) <;>
      rfl
  · cases h : env.iconFile <;> cases h2 : env.saveOk <;> simp [main, h, h2]

/-- Claim C6: runs that see the same icon file contents and resolve the same
font write the same output image, whatever the values of the time,
randomness, argv and environment-variable fields: the composed image is a
deterministic function of the icon bytes and the resolved font. -/
theorem C6_determinism (env1 env2 : Env)
    (hIcon : env1.iconFile = env2.iconFile)
    (hFont : resolveFont env1 = resolveFont env2)
    (hSave : env1.saveOk = env2.saveOk) :
    outputImage env1 = outputImage env2 := by
  simp only [outputImage, main, hIcon, hFont, hSave]
  cases env2.iconFile <;> cases env2.saveOk <;>
    simp [List.findSome?_cons]

/-- Witness for C6: envW and envWT differ in time, randomness, argv and the
environment variables, and write the same image. -/
theorem C6_witness :
    envW.iconFile = envWT.iconFile ∧ resolveFont envW = resolveFont envWT ∧
    envW.saveOk = envWT.saveOk ∧ outputImage envW = outputImage envWT :=
  ⟨rfl, rfl, rfl, C6_determinism envW envWT rfl rfl rfl⟩

/-- Claim C7: the run never consults argv, environment variables, time or
randomness, and the input and output paths are fixed relative paths under
the directory of the script itself. -/
theorem C7_no_external_inputs (env : Env) (a : List String) (e : String → Option String)
    (t r : Nat) :
    main { env with argv := a, envVars := e, time := t, randomSeed := r } = main env ∧
    ICON_PATH env.scriptDir =
      env.scriptDir ++ "/../VGB/App/Resources/IconKitchen-Output/ios/AppIcon~ios-marketing.png" ∧
    OUT_PATH env.scriptDir =
      env.scriptDir ++ "/../VGB/App/Resources/Assets.xcassets/LaunchLogo.imageset/LaunchLogo.png" :=
  ⟨rfl, ICON_PATH_eq env.scriptDir, OUT_PATH_eq env.scriptDir⟩

/-- Claim C8: a successful run produces exactly two observable effects, in
order: the PNG write at the output path and the stdout confirmation line;
every file write in the trace targets the output path, and the output path
always differs from the source icon path, so the icon is never modified. -/
theorem C8_side_effects (env : Env) (d : IconData) (h1 : env.iconFile = some d)
    (h2 : env.saveOk = true) :
    (∃ img, (main env).1 =
      [Effect.fileWrite (OUT_PATH env.scriptDir) img ("PNG"),
       Effect.stdoutLine ("Saved " ++ OUT_PATH env.scriptDir)]) ∧
    (main env).2 = Except.ok () ∧
    (∀ p img fmt, Effect.fileWrite p img fmt ∈ (main env).1 → p = OUT_PATH env.scriptDir) ∧
    ICON_PATH env.scriptDir ≠ OUT_PATH env.scriptDir := by
  have hm := main_success env d h1 h2
  refine ⟨⟨finalImg env d, by rw [hm]⟩, by rw [hm], ?_,
    ICON_PATH_ne_OUT_PATH env.scriptDir⟩
  intro p img fmt hmem
  rw [hm] at hmem
  simp only [List.mem_cons, List.not_mem_nil, or_false] at hmem
  rcases hmem with h | h
  · injection h with hp hi hf
  · exact Effect.noConfusion h

/-- Witness for C8 at the concrete environment envW. -/
theorem C8_witness :
    envW.iconFile = some sampleIcon ∧ envW.saveOk = true ∧
    ((∃ img, (main envW).1 =
      [Effect.fileWrite (OUT_PATH envW.scriptDir) img ("PNG"),
       Effect.stdoutLine ("Saved " ++ OUT_PATH envW.scriptDir)]) ∧
    (main envW).2 = Except.ok () ∧
    (∀ p img fmt, Effect.fileWrite p img fmt ∈ (main envW).1 → p = OUT_PATH envW.scriptDir) ∧
    ICON_PATH envW.scriptDir ≠ OUT_PATH envW.scriptDir) :=
  ⟨rfl, rfl, C8_side_effects envW sampleIcon rfl rfl⟩

/-- Claim C10: the font loop swallows every exception a candidate load can
raise: two environments whose loaders succeed on the same candidates with
the same fonts are indistinguishable, whatever exception values the failing
loads raise, and at the text-draw the font is always the resolved font,
never absent. -/
theorem C10_font_loop_total (env1 env2 : Env)
    (hs : env1.scriptDir = env2.scriptDir) (hi : env1.iconFile = env2.iconFile)
    (hd : env1.defaultFont = env2.defaultFont) (hk : env1.saveOk = env2.saveOk)
    (hagree : ∀ p s i f,
      env1.fontLoad p s i = Except.ok f ↔ env2.fontLoad p s i = Except.ok f) :
    main env1 = main env2 ∧
    (∀ d, env1.iconFile = some d → env1.saveOk = true →
      (outputImage env1).bind Img.textFont = some (resolveFont env1)) := by
  have hrf : resolveFont env1 = resolveFont env2 := by
    unfold resolveFont
    rw [tryFonts_ext env1.fontLoad env2.fontLoad (fun p i f => hagree p TEXT_SIZE i f), hd]
  constructor
  · simp only [main, hi, hk, hs, hrf]
  · intro d hd1 hk1
    rw [outputImage_success env1 d hd1 hk1]
    rfl

/-- Witness for C10: the loaders of envW and envWB fail with different
exception values on every candidate, and the runs are identical. -/
theorem C10_witness :
    envW.scriptDir = envWB.scriptDir ∧ envW.iconFile = envWB.iconFile ∧
    envW.defaultFont = envWB.defaultFont ∧ envW.saveOk = envWB.saveOk ∧
    (∀ p s i f, envW.fontLoad p s i = Except.ok f ↔ envWB.fontLoad p s i = Except.ok f) ∧
    (main envW = main envWB ∧
     (∀ d, envW.iconFile = some d → envW.saveOk = true →
       (outputImage envW).bind Img.textFont = some (resolveFont envW))) := by
  have hag : ∀ p s i f,
      envW.fontLoad p s i = Except.ok f ↔ envWB.fontLoad p s i = Except.ok f := by
    intro p s i f
    constructor
    · intro h
      exact absurd h (by simp [envW])
    · intro h
      exact absurd h (by simp [envWB, envW])
  exact ⟨rfl, rfl, rfl, rfl, hag, C10_font_loop_total envW envWB rfl rfl rfl rfl hag⟩

end BuildSplash
